import Mathlib

/-!
Shallow embedding of the request-to-inference pipeline of the SDGP-CS-135
ai_backend repository: request serializers (validation), document text
extraction, the Hugging Face inference adapter, and the HTTP view handlers.
Python dictionaries with fixed keys become Lean structures, exceptions become
`Except`, the remote inference call becomes an explicit oracle parameter
(a function from the call arguments to an `Except` outcome, standing for the
blocking `InferenceClient` call run in the executor), and the file system
becomes a lookup function from paths to typed file contents.
-/

/-- Raw form-field values as they arrive in `request.data`: a string, an
integer, or a float (modelled as a rational). An absent field is `Option.none`
at the call site. -/
inductive Raw
  | rstr (s : String)
  | rint (n : Int)
  | rfloat (q : Rat)
deriving DecidableEq, Repr

/-- Coercion a DRF `IntegerField` applies to a raw value: integers pass
through, strings are parsed as integers, floats are accepted only when they
are integral. Returns `none` when the value is non-numeric for the field. -/
def Raw.asInt : Raw → Option Int
  | .rint n => some n
  | .rstr s => s.toInt?
  | .rfloat q => if q.den == 1 then some q.num else none

/-- Coercion a DRF `FloatField` applies to a raw value: floats and integers
pass through, strings are parsed (integral strings only in this model).
Returns `none` when the value is non-numeric for the field. -/
def Raw.asRat : Raw → Option Rat
  | .rfloat q => some q
  | .rint n => some (n : Rat)
  | .rstr s => (s.toInt?).map (fun n => (n : Rat))

/-- Coercion a DRF `CharField` applies to a raw value: `str(data)`. -/
def Raw.asStr : Raw → String
  | .rstr s => s
  | .rint n => toString n
  | .rfloat q => toString q

/-- Result envelope returned by every adapter operation: the Python dict
`{status: success, model: .., <key>: payload}` or
`{status: error, message: .., model: ..}`. `key` records which payload key the
operation used (`response`, or `questions` for question generation). -/
inductive Envelope
  | ok (model : String) (key : String) (payload : String)
  | err (model : String) (message : String)
deriving DecidableEq, Repr

/-- Value of the `status` key of an envelope. -/
def Envelope.status : Envelope → String
  | .ok _ _ _ => "success"
  | .err _ _ => "error"

/-- Value of the `message` key of an envelope, when present. -/
def Envelope.message : Envelope → Option String
  | .ok _ _ _ => none
  | .err _ m => some m

/-- Value of the `model` key of an envelope. -/
def Envelope.model : Envelope → String
  | .ok m _ _ => m
  | .err m _ => m

/-- Parameter bag built by `HuggingFaceService.generate_text`:
`{"temperature": temperature, "return_full_text": False}`. -/
structure GenParams where
  temperature : Rat
  return_full_text : Bool
deriving DecidableEq, Repr

/-- Parameter bag built by `HuggingFaceService.summarize_text`:
`{"max_length": .., "min_length": .., "do_sample": False}`. -/
structure SumParams where
  max_length : Int
  min_length : Int
  do_sample : Bool
deriving DecidableEq, Repr

/-- Parameter bag built by `HuggingFaceService.generate_questions`:
`{"max_length": 64, "num_return_sequences": .., "do_sample": True}`. -/
structure QGenParams where
  max_length : Int
  num_return_sequences : Int
  do_sample : Bool
deriving DecidableEq, Repr

/-- Outcome of a remote inference call: the returned payload, or the
stringified exception (`str(e)`) that the call raised. -/
abbrev RemoteOutcome := Except String String

namespace HuggingFaceService

/-- Parameter dictionary constructed at the top of
`HuggingFaceService.generate_text`. The Python dict literal mentions only
`temperature` and `return_full_text`; the `max_length` argument of the
surrounding method does not appear in it. -/
def genTextParameters (temperature : Rat) : GenParams :=
  { temperature := temperature, return_full_text := false }

/-- `HuggingFaceService.generate_text(prompt, max_length, temperature)`:
builds the parameter bag, runs `client.text_generation(prompt, **parameters)`
through the executor (the `remote` oracle), and wraps the outcome in the
success or error envelope. The `except Exception` arm returns
`{status: error, message: f"Error: {str(e)}", model: self.model_id}`, so no
exception escapes this method. -/
def generate_text (model_id : String) (prompt : String) (max_length : Int)
    (temperature : Rat) (remote : String → GenParams → RemoteOutcome) : Envelope :=
  let parameters := genTextParameters temperature
  match remote prompt parameters with
  | .ok response => .ok model_id "response" response
  | .error e => .err model_id ("Error: " ++ e)

/-- `HuggingFaceService.summarize_text(text, max_length, min_length)`: builds
the deterministic-decoding parameter bag, runs `client.summarization(text,
**parameters)` through the executor, and wraps the outcome in the success or
error envelope. -/
def summarize_text (model_id : String) (text : String) (max_length : Int)
    (min_length : Int) (remote : String → SumParams → RemoteOutcome) : Envelope :=
  let parameters : SumParams :=
    { max_length := max_length, min_length := min_length, do_sample := false }
  match remote text parameters with
  | .ok response => .ok model_id "response" response
  | .error e => .err model_id ("Error: " ++ e)

/-- `HuggingFaceService.generate_questions(context, num_questions)`: prefixes
the literal instruction `"generate questions: "` to the context, runs
`client.text2text_generation` through the executor with sampling enabled and
`num_return_sequences = num_questions`, and wraps the outcome; the success
envelope uses the key `questions` instead of `response`. -/
def generate_questions (model_id : String) (context : String)
    (num_questions : Int) (remote : String → QGenParams → RemoteOutcome) : Envelope :=
  let parameters : QGenParams :=
    { max_length := 64, num_return_sequences := num_questions, do_sample := true }
  match remote ("generate questions: " ++ context) parameters with
  | .ok response => .ok model_id "questions" response
  | .error e => .err model_id ("Error: " ++ e)

end HuggingFaceService

/-- Model-id resolution in `HuggingFaceService.__init__`:
`self.model_id = model_id or settings.DEFAULT_HUGGINGFACE_MODEL`. Python `or`
falls through to the default on `None` and on the empty (falsy) string. -/
def resolveModelId (model_id : Option String) (defaultModel : String) : String :=
  match model_id with
  | none => defaultModel
  | some s => if s = "" then defaultModel else s

/-! ## Document extractor (`api/text_extract.py`) -/

/-- Typed contents of a file on disk, one constructor per format the extractor
reads: PDF as its pages in order, DOCX as its paragraph texts in order, TXT as
its raw decoded contents, HTML as its parsed visible text (the BeautifulSoup
`get_text()` result), CSV as its parsed rows of cell strings. -/
inductive FileData
  | pdf (pages : List String)
  | docx (paras : List String)
  | txt (content : String)
  | html (visibleText : String)
  | csv (rows : List (List String))
deriving DecidableEq, Repr

/-- File system seen by the extractor: paths map to file contents, `none` when
the path does not exist. -/
abbrev FS := String → Option FileData

/-- Python `str.endswith`: suffix test on the character sequence. -/
def strEndsWith (s pat : String) : Bool :=
  pat.data.isSuffixOf s.data

/-- Occurrence test of a character sequence inside another. -/
def containsSeq : List Char → List Char → Bool
  | [], pat => pat.isEmpty
  | c :: rest, pat => pat.isPrefixOf (c :: rest) || containsSeq rest pat

/-- Object state of `TextExtractor`: the `file_path` stored by `__init__`. -/
structure TextExtractor where
  file_path : String
deriving DecidableEq, Repr

/-- Stringified `TypeError` produced by calling `TextExtractor()` with no
argument, since `__init__(self, file_path)` has one required positional
parameter. -/
def textExtractorInitTypeError : String :=
  "TextExtractor.__init__ missing 1 required positional argument: file_path"

/-- Python-call semantics of constructing a `TextExtractor`: the constructor
takes exactly one positional argument `file_path`; any other arity raises a
`TypeError` (returned here as the error branch). -/
def TextExtractor.initCall (args : List String) : Except String TextExtractor :=
  match args with
  | [fp] => .ok { file_path := fp }
  | _ => .error textExtractorInitTypeError

namespace TextExtractor

/-- Loop body of `extract_text_from_csv`: for each row in file order,
`text += ' '.join(row) + '\n'` starting from the empty string. -/
def extract_text_from_csv_rows (rows : List (List String)) : String :=
  rows.foldl (fun text row => text ++ String.intercalate " " row ++ "\n") ""

/-- `extract_text_from_pdf`: opens the file and concatenates
`page.extract_text()` over all pages with no separator. A missing file
surfaces as the raised open error; contents of the wrong shape surface as the
raised parse error. -/
def extract_text_from_pdf (t : TextExtractor) (fs : FS) : Except String String :=
  match fs t.file_path with
  | some (.pdf pages) => .ok (String.join pages)
  | some _ => .error ("PdfReadError: " ++ t.file_path)
  | none => .error ("FileNotFoundError: " ++ t.file_path)

/-- `extract_text_from_docx`: concatenates `para.text` over all paragraphs
with no separator. -/
def extract_text_from_docx (t : TextExtractor) (fs : FS) : Except String String :=
  match fs t.file_path with
  | some (.docx paras) => .ok (String.join paras)
  | some _ => .error ("PackageNotFoundError: " ++ t.file_path)
  | none => .error ("FileNotFoundError: " ++ t.file_path)

/-- `extract_text_from_txt`: returns the raw decoded file contents. -/
def extract_text_from_txt (t : TextExtractor) (fs : FS) : Except String String :=
  match fs t.file_path with
  | some (.txt content) => .ok content
  | some _ => .error ("UnicodeDecodeError: " ++ t.file_path)
  | none => .error ("FileNotFoundError: " ++ t.file_path)

/-- `extract_text_from_html`: parses with BeautifulSoup and returns
`soup.get_text()`, the visible text with markup stripped. -/
def extract_text_from_html (t : TextExtractor) (fs : FS) : Except String String :=
  match fs t.file_path with
  | some (.html visibleText) => .ok visibleText
  | some _ => .error ("UnicodeDecodeError: " ++ t.file_path)
  | none => .error ("FileNotFoundError: " ++ t.file_path)

/-- `extract_text_from_csv`: reads the rows with `csv.reader` and accumulates
`' '.join(row) + '\n'` per row. -/
def extract_text_from_csv (t : TextExtractor) (fs : FS) : Except String String :=
  match fs t.file_path with
  | some (.csv rows) => .ok (extract_text_from_csv_rows rows)
  | some _ => .error ("csv.Error: " ++ t.file_path)
  | none => .error ("FileNotFoundError: " ++ t.file_path)

/-- `extract_text`: dispatches on the filename suffix of `self.file_path`
(`str.endswith`, case sensitive, no content sniffing); an unrecognised suffix
raises `ValueError('Unsupported file format')` before touching the file
system. -/
def extract_text (t : TextExtractor) (fs : FS) : Except String String :=
  if strEndsWith t.file_path ".pdf" then t.extract_text_from_pdf fs
  else if strEndsWith t.file_path ".docx" then t.extract_text_from_docx fs
  else if strEndsWith t.file_path ".txt" then t.extract_text_from_txt fs
  else if strEndsWith t.file_path ".html" then t.extract_text_from_html fs
  else if strEndsWith t.file_path ".csv" then t.extract_text_from_csv fs
  else .error "Unsupported file format"

end TextExtractor

/-- Suffix test performed by the chain of `endswith` checks in
`extract_text`: true exactly when one of the five supported extensions
matches. -/
def supportedSuffix (path : String) : Bool :=
  strEndsWith path ".pdf" || strEndsWith path ".docx" || strEndsWith path ".txt" ||
    strEndsWith path ".html" || strEndsWith path ".csv"

/-- Substring test: `strContains s pat` is true when `pat` occurs inside
`s`. -/
def strContains (s pat : String) : Bool :=
  containsSeq s.data pat.data

/-! ## Request serializers (`api/serializers.py`) -/

/-- Uploaded file as it appears in `request.FILES`: a blob carrying its
client-supplied filename. -/
structure UploadedFile where
  name : String
deriving DecidableEq, Repr

/-- Boolean test for the error branch of a field-validation result. -/
def exceptIsErr {ε α : Type} : Except ε α → Bool
  | .error _ => true
  | .ok _ => false

/-- Contribution of one field to the serializer error dict: the field name
when its validation failed, nothing otherwise. DRF validates every declared
field and collects all per-field errors into one dict. -/
def errName {α : Type} (f : String) (e : Except Unit α) : List String :=
  if exceptIsErr e then [f] else []

/-- `serializers.CharField(required=True)`: absent input is a field error;
present input is coerced with `str`, and — `allow_blank` defaulting to
`False` — a blank value is also a field error. -/
def reqCharField (r : Option Raw) : Except Unit String :=
  match r with
  | none => .error ()
  | some v => if v.asStr = "" then .error () else .ok v.asStr

/-- `serializers.CharField(required=False, allow_blank=True)`: absent input
stays absent, present input is coerced with `str`; never a field error. -/
def optCharField (r : Option Raw) : Except Unit (Option String) :=
  .ok (r.map Raw.asStr)

/-- `serializers.IntegerField(min_value=lo, max_value=hi, default=deflt)`:
the default applies only when the field is entirely absent; a present value
must be numeric and inside the inclusive `[lo, hi]` range. -/
def intField (lo hi deflt : Int) (r : Option Raw) : Except Unit Int :=
  match r with
  | none => .ok deflt
  | some v =>
    match v.asInt with
    | none => .error ()
    | some n => if n < lo || hi < n then .error () else .ok n

/-- `serializers.FloatField(min_value=lo, max_value=hi, default=deflt)`: same
shape as the integer field over rationals. -/
def floatField (lo hi deflt : Rat) (r : Option Raw) : Except Unit Rat :=
  match r with
  | none => .ok deflt
  | some v =>
    match v.asRat with
    | none => .error ()
    | some q => if q < lo || hi < q then .error () else .ok q

/-- `serializers.FileField(required=True)`: absent upload is a field error. -/
def reqFileField (r : Option UploadedFile) : Except Unit UploadedFile :=
  match r with
  | none => .error ()
  | some f => .ok f

/-- `serializers.FileField(required=False)`: never a field error. -/
def optFileField (r : Option UploadedFile) : Except Unit (Option UploadedFile) :=
  .ok r

/-- Raw input to `TextGenerationRequestSerializer`: the four declared fields
as they arrive in `request.data`, each possibly absent. -/
structure RawGenInput where
  prompt : Option Raw
  max_length : Option Raw
  temperature : Option Raw
  model_id : Option Raw
deriving DecidableEq, Repr

/-- Typed request produced by a valid `TextGenerationRequestSerializer`. -/
structure GenRequest where
  prompt : String
  max_length : Int
  temperature : Rat
  model_id : Option String
deriving DecidableEq, Repr

/-- `TextGenerationRequestSerializer.is_valid()` plus `validated_data`:
`prompt` required, `max_length` in `[1, 1000]` defaulting to 100,
`temperature` in `[0, 1]` defaulting to 0.7, `model_id` optional. All field
errors are collected together; the typed request is produced only when every
field validates. -/
def validateGen (i : RawGenInput) : Except (List String) GenRequest :=
  match reqCharField i.prompt, intField 1 1000 100 i.max_length,
      floatField 0 1 (7/10) i.temperature, optCharField i.model_id with
  | .ok p, .ok ml, .ok t, .ok mid =>
    .ok { prompt := p, max_length := ml, temperature := t, model_id := mid }
  | rp, rml, rt, rmid =>
    .error (errName "prompt" rp ++ errName "max_length" rml ++
      errName "temperature" rt ++ errName "model_id" rmid)

/-- Raw input to `TextSummarizationRequestSerializer`: the file part of the
request plus the three form fields. -/
structure RawSumInput where
  file : Option UploadedFile
  max_length : Option Raw
  min_length : Option Raw
  model_id : Option Raw
deriving DecidableEq, Repr

/-- Typed request produced by a valid `TextSummarizationRequestSerializer`. -/
structure SumRequest where
  file : UploadedFile
  max_length : Int
  min_length : Int
  model_id : Option String
deriving DecidableEq, Repr

/-- `TextSummarizationRequestSerializer.is_valid()` plus `validated_data`:
`file` required, `max_length` in `[1, 1000]` defaulting to 200, `min_length`
in `[1, 1000]` defaulting to 50, `model_id` optional. No relation between
`min_length` and `max_length` is checked. -/
def validateSum (i : RawSumInput) : Except (List String) SumRequest :=
  match reqFileField i.file, intField 1 1000 200 i.max_length,
      intField 1 1000 50 i.min_length, optCharField i.model_id with
  | .ok f, .ok ml, .ok mnl, .ok mid =>
    .ok { file := f, max_length := ml, min_length := mnl, model_id := mid }
  | rf, rml, rmnl, rmid =>
    .error (errName "file" rf ++ errName "max_length" rml ++
      errName "min_length" rmnl ++ errName "model_id" rmid)

/-- Raw input to `TextQuestionGenerationRequestSerializer`. -/
structure RawQGenInput where
  context : Option Raw
  file : Option UploadedFile
  num_questions : Option Raw
  model_id : Option Raw
deriving DecidableEq, Repr

/-- Typed request produced by a valid
`TextQuestionGenerationRequestSerializer`. -/
structure QGenRequest where
  context : Option String
  file : Option UploadedFile
  num_questions : Int
  model_id : Option String
deriving DecidableEq, Repr

/-- `TextQuestionGenerationRequestSerializer.is_valid()` plus
`validated_data`: `context` and `file` both optional — a request carrying
neither is not a validation failure; `num_questions` in `[1, 10]` defaulting
to 5; `model_id` optional. -/
def validateQGen (i : RawQGenInput) : Except (List String) QGenRequest :=
  match optCharField i.context, optFileField i.file,
      intField 1 10 5 i.num_questions, optCharField i.model_id with
  | .ok c, .ok f, .ok nq, .ok mid =>
    .ok { context := c, file := f, num_questions := nq, model_id := mid }
  | rc, rf, rnq, rmid =>
    .error (errName "context" rc ++ errName "file" rf ++
      errName "num_questions" rnq ++ errName "model_id" rmid)

/-! ## View handlers (`api/views.py`) -/

/-- JSON body of an HTTP response produced by the views: the adapter
envelope, the serializer field-error dict (its keys here), or a handwritten
`{"error": msg}` dict. -/
inductive Body
  | envelope (e : Envelope)
  | fieldErrors (errs : List String)
  | errorMsg (msg : String)
deriving DecidableEq, Repr

/-- HTTP response: status code plus JSON body. -/
structure HttpResponse where
  statusCode : Nat
  body : Body
deriving DecidableEq, Repr

/-- `HuggingFaceView._post_async`: validate with
`TextGenerationRequestSerializer` (400 with the field errors on failure),
build the service with the optional `model_id` override, await
`generate_text`, then map the envelope status to HTTP 200 on `success` and
500 otherwise. -/
def HuggingFaceView.postAsync (i : RawGenInput) (defaultModel : String)
    (remote : String → GenParams → RemoteOutcome) : HttpResponse :=
  match validateGen i with
  | .error errs => ⟨400, .fieldErrors errs⟩
  | .ok req =>
    let modelId := resolveModelId req.model_id defaultModel
    let result := HuggingFaceService.generate_text modelId req.prompt
      req.max_length req.temperature remote
    if result.status == "success" then ⟨200, .envelope result⟩
    else ⟨500, .envelope result⟩

/-- Tail of `SummarizationView._post_async` from the point where text has
been extracted: await `summarize_text` with the validated lengths and map the
envelope status to HTTP 200 on `success` and 500 otherwise. -/
def SummarizationView.dispatch (req : SumRequest) (extracted_text : String)
    (defaultModel : String) (remote : String → SumParams → RemoteOutcome) :
    HttpResponse :=
  let modelId := resolveModelId req.model_id defaultModel
  let result := HuggingFaceService.summarize_text modelId extracted_text
    req.max_length req.min_length remote
  if result.status == "success" then ⟨200, .envelope result⟩
  else ⟨500, .envelope result⟩

/-- `SummarizationView._post_async`: validate (400 with field errors on
failure), check `request.FILES.get('file')` (400 `No file uploaded` when
absent), then run `TextExtractor()` — written with no argument — and
`extract_text()` inside a try that answers 500 `Failed to extract text: ...`
on any exception, and finally dispatch to summarization. -/
def SummarizationView.postAsync (i : RawSumInput) (defaultModel : String)
    (fs : FS) (remote : String → SumParams → RemoteOutcome) : HttpResponse :=
  match validateSum i with
  | .error errs => ⟨400, .fieldErrors errs⟩
  | .ok req =>
    match i.file with
    | none => ⟨400, .errorMsg "No file uploaded"⟩
    | some _ =>
      match TextExtractor.initCall [] with
      | .error e => ⟨500, .errorMsg ("Failed to extract text: " ++ e)⟩
      | .ok extractor =>
        match extractor.extract_text fs with
        | .error e => ⟨500, .errorMsg ("Failed to extract text: " ++ e)⟩
        | .ok extracted_text =>
          SummarizationView.dispatch req extracted_text defaultModel remote

/-- Tail of `QuestionGenerationView._post_async` from the point where text
has been extracted: await `generate_questions` with the validated count and
map the envelope status to HTTP 200 on `success` and 500 otherwise. -/
def QuestionGenerationView.dispatch (req : QGenRequest)
    (extracted_text : String) (defaultModel : String)
    (remote : String → QGenParams → RemoteOutcome) : HttpResponse :=
  let modelId := resolveModelId req.model_id defaultModel
  let result := HuggingFaceService.generate_questions modelId extracted_text
    req.num_questions remote
  if result.status == "success" then ⟨200, .envelope result⟩
  else ⟨500, .envelope result⟩

/-- `QuestionGenerationView._post_async`: validate (400 with field errors on
failure), check `request.FILES.get('file')` (400 `No file uploaded` when
absent — even though the serializer treats `file` as optional), then run
`TextExtractor()` — written with no argument — and `extract_text()` inside a
try that answers 500 `Failed to extract text: ...` on any exception, and
finally dispatch to question generation. -/
def QuestionGenerationView.postAsync (i : RawQGenInput)
    (defaultModel : String) (fs : FS)
    (remote : String → QGenParams → RemoteOutcome) : HttpResponse :=
  match validateQGen i with
  | .error errs => ⟨400, .fieldErrors errs⟩
  | .ok req =>
    match i.file with
    | none => ⟨400, .errorMsg "No file uploaded"⟩
    | some _ =>
      match TextExtractor.initCall [] with
      | .error e => ⟨500, .errorMsg ("Failed to extract text: " ++ e)⟩
      | .ok extractor =>
        match extractor.extract_text fs with
        | .error e => ⟨500, .errorMsg ("Failed to extract text: " ++ e)⟩
        | .ok extracted_text =>
          QuestionGenerationView.dispatch req extracted_text defaultModel remote

/-! ## Specification-side definitions

Definitions in this section follow the wording of the specification and of
the claims, to be compared with the definitions above that embed the source.
-/

/-- CSV extraction as the specification words it: for each row in file order,
join the cell values with a single space and append a newline; concatenate
all rows. -/
def csvSpecText (rows : List (List String)) : String :=
  String.join (rows.map (fun row => String.intercalate " " row ++ "\n"))

/-- Violation of a numeric integer field as the claim words it: a present
value that is non-numeric, or numeric but outside the inclusive `[lo, hi]`
range. An absent field is not a violation (the default applies). -/
def intRawViolation (lo hi : Int) (r : Option Raw) : Bool :=
  match r with
  | none => false
  | some v =>
    match v.asInt with
    | none => true
    | some n => n < lo || hi < n

/-- Violation of a numeric float field as the claim words it. -/
def ratRawViolation (lo hi : Rat) (r : Option Raw) : Bool :=
  match r with
  | none => false
  | some v =>
    match v.asRat with
    | none => true
    | some q => q < lo || hi < q

/-- Set of violated fields of a text-generation request as the claim words
it: fields missing while required, non-numeric where a number is required, or
out of their inclusive range — and no others. -/
def genViolationFields (i : RawGenInput) : List String :=
  (if i.prompt.isNone then ["prompt"] else []) ++
    (if intRawViolation 1 1000 i.max_length then ["max_length"] else []) ++
    (if ratRawViolation 0 1 i.temperature then ["temperature"] else [])

/-- Violation of a required char field that does not allow blank, as the
amended claim words it: the field is missing, or present but blank. -/
def promptViolation (r : Option Raw) : Bool :=
  match r with
  | none => true
  | some v => v.asStr == ""

/-- Set of violated fields of a text-generation request as the amended claim
words it: fields missing while required, blank while required and not
allowing blank, non-numeric where a number is required, or out of their
inclusive range — and no others. -/
def genViolationFieldsAmended (i : RawGenInput) : List String :=
  (if promptViolation i.prompt then ["prompt"] else []) ++
    (if intRawViolation 1 1000 i.max_length then ["max_length"] else []) ++
    (if ratRawViolation 0 1 i.temperature then ["temperature"] else [])

/-- Field-error list carried by a validation result: the collected field
names on failure, empty on success. -/
def errorFieldsOf {α : Type} : Except (List String) α → List String
  | .error errs => errs
  | .ok _ => []

/-! ## Theorems -/

/-- Folding string concatenation from an arbitrary accumulator prepends the
accumulator to the joined list. -/
lemma foldl_append_acc (l : List String) (acc : String) :
    l.foldl (fun r s => r ++ s) acc = acc ++ String.join l := by
  induction l generalizing acc with
  | nil => exact (String.append_empty acc).symm
  | cons s t ih =>
    show t.foldl (fun r s => r ++ s) (acc ++ s) = acc ++ String.join (s :: t)
    have hj : String.join (s :: t) = s ++ String.join t := by
      show t.foldl (fun r s => r ++ s) ("" ++ s) = s ++ String.join t
      rw [String.empty_append, ih]
    rw [ih, hj, String.append_assoc]

/-- Accumulator form of the `extract_text_from_csv` loop: starting the fold
from `acc` prepends `acc` to the specification text. -/
lemma csv_rows_foldl_eq (rows : List (List String)) (acc : String) :
    rows.foldl (fun text row => text ++ String.intercalate " " row ++ "\n") acc
      = acc ++ csvSpecText rows := by
  induction rows generalizing acc with
  | nil => exact (String.append_empty acc).symm
  | cons r rs ih =>
    show rs.foldl _ (acc ++ String.intercalate " " r ++ "\n")
        = acc ++ csvSpecText (r :: rs)
    have hc : csvSpecText (r :: rs)
        = (String.intercalate " " r ++ "\n") ++ csvSpecText rs := by
      show String.join ((String.intercalate " " r ++ "\n")
          :: rs.map (fun row => String.intercalate " " row ++ "\n")) = _
      show List.foldl (fun r s => r ++ s) ("" ++ (String.intercalate " " r ++ "\n")) _ = _
      rw [String.empty_append, foldl_append_acc]
      rfl
    rw [ih, hc, String.append_assoc, String.append_assoc,
      String.append_assoc (String.intercalate " " r) "\n" (csvSpecText rs)]

/-- Error test of the required char field: it fails exactly on absence or on
a blank value. -/
lemma reqCharField_isErr (r : Option Raw) :
    exceptIsErr (reqCharField r) = promptViolation r := by
  cases r with
  | none => rfl
  | some v =>
    simp only [reqCharField, promptViolation]
    split <;> simp_all [exceptIsErr]

/-- Error test of the ranged integer field: it fails exactly on the numeric
violation the claim describes. -/
lemma intField_isErr (lo hi d : Int) (r : Option Raw) :
    exceptIsErr (intField lo hi d r) = intRawViolation lo hi r := by
  cases r with
  | none => rfl
  | some v =>
    cases hv : v.asInt with
    | none => simp [intField, intRawViolation, hv, exceptIsErr]
    | some n =>
      simp only [intField, intRawViolation, hv]
      split <;> simp_all [exceptIsErr]

/-- Error test of the ranged float field: it fails exactly on the numeric
violation the claim describes. -/
lemma floatField_isErr (lo hi d : Rat) (r : Option Raw) :
    exceptIsErr (floatField lo hi d r) = ratRawViolation lo hi r := by
  cases r with
  | none => rfl
  | some v =>
    cases hv : v.asRat with
    | none => simp [floatField, ratRawViolation, hv, exceptIsErr]
    | some q =>
      simp only [floatField, ratRawViolation, hv]
      split <;> simp_all [exceptIsErr]

/-- C7: for every CSV file the extractor returns the concatenation, in file
order, of each row's cell values joined with a single space followed by a
newline; in particular rows `[[a, b], [c]]` give `a b\nc\n`, also when read
through `extract_text` on a `.csv` path. -/
theorem C7_csv_extraction_concatenates_rows :
    (∀ rows, TextExtractor.extract_text_from_csv_rows rows = csvSpecText rows) ∧
    TextExtractor.extract_text_from_csv_rows [["a", "b"], ["c"]] = "a b\nc\n" ∧
    TextExtractor.extract_text ⟨"data.csv"⟩ (fun _ => some (.csv [["a", "b"], ["c"]]))
      = .ok "a b\nc\n" := by
  refine ⟨fun rows => ?_, by decide, by rfl⟩
  show rows.foldl _ "" = csvSpecText rows
  rw [csv_rows_foldl_eq, String.empty_append]

/-- C6 counterexample: on the unsupported extension `.xyz` the extractor
fails before reading the file system, but the raised error message is the
fixed string `Unsupported file format`, which does not name the offending
extension. -/
theorem C6_counterexample_error_does_not_name_extension :
    TextExtractor.extract_text ⟨"doc.xyz"⟩ (fun _ => none)
      = .error "Unsupported file format" ∧
    strContains "Unsupported file format" "xyz" = false ∧
    strContains "Unsupported file format" ".xyz" = false := by
  exact ⟨by rfl, by decide, by decide⟩

/-- C6 (amended): for every filename whose suffix is none of `.pdf`, `.docx`,
`.txt`, `.html`, `.csv`, `extract_text` fails with the fixed
`ValueError('Unsupported file format')` — not naming the extension — and no
extraction is attempted: the result is the same for every file system. -/
theorem C6_unsupported_suffix_never_extracts (p : String) (fs : FS)
    (h : supportedSuffix p = false) :
    TextExtractor.extract_text ⟨p⟩ fs = .error "Unsupported file format" := by
  simp only [supportedSuffix, Bool.or_eq_false_iff] at h
  obtain ⟨⟨⟨⟨h1, h2⟩, h3⟩, h4⟩, h5⟩ := h
  simp [TextExtractor.extract_text, h1, h2, h3, h4, h5]

/-- C6 witness: the amended theorem applied to the concrete unsupported file
`doc.xyz` on the empty file system. -/
theorem C6_unsupported_suffix_witness :
    supportedSuffix "doc.xyz" = false ∧
    TextExtractor.extract_text ⟨"doc.xyz"⟩ (fun _ => none)
      = .error "Unsupported file format" :=
  ⟨by decide, C6_unsupported_suffix_never_extracts "doc.xyz" (fun _ => none) (by decide)⟩

/-- C9: the summarization validator does not enforce `min_length ≤
max_length`: the concrete request with `max_length = 10` and `min_length =
20`, both inside `[1, 1000]`, is accepted as a typed request with no field
error. -/
theorem C9_min_gt_max_accepted :
    validateSum
        { file := some ⟨"notes.txt"⟩, max_length := some (.rint 10),
                  min_length := some (.rint 20), model_id := none }
      = .ok { file := ⟨"notes.txt"⟩, max_length := 10, min_length := 20,
                  model_id := none } ∧
    (1 ≤ (10 : Int) ∧ (10 : Int) ≤ 1000) ∧
    (1 ≤ (20 : Int) ∧ (20 : Int) ≤ 1000) ∧ (10 : Int) < 20 := by
  exact ⟨by rfl, by decide, by decide, by decide⟩

/-- C10: `generate_text` is independent of its `max_length` argument — the
parameter bag it builds mentions only the temperature and
`return_full_text = false`, so for any two `max_length` values the oracle is
consulted with identical arguments and the returned envelope is identical. -/
theorem C10_generate_text_independent_of_max_length
    (model_id prompt : String) (temperature : Rat) (ml1 ml2 : Int)
    (remote : String → GenParams → RemoteOutcome) :
    HuggingFaceService.generate_text model_id prompt ml1 temperature remote
      = HuggingFaceService.generate_text model_id prompt ml2 temperature remote ∧
    HuggingFaceService.genTextParameters temperature
      = { temperature := temperature, return_full_text := false } :=
  ⟨rfl, rfl⟩

/-- Status of every envelope is one of the two literals. -/
lemma envelope_status_cases (v : Envelope) :
    v.status = "success" ∨ v.status = "error" := by
  cases v <;> simp [Envelope.status]

/-- Boolean form of a non-success status. -/
lemma status_beq_false (v : Envelope) (h : v.status = "error") :
    (v.status == "success") = false := by
  rw [h]; rfl

/-- Boolean form of a success status. -/
lemma status_beq_true (v : Envelope) (h : v.status = "success") :
    (v.status == "success") = true := by
  rw [h]; rfl

/-- C1 counterexample: when the remote text-generation call raises an
exception whose stringification is `boom`, the returned error envelope
carries the message `Error: boom`, which differs from the stringified cause
itself. -/
theorem C1_counterexample_message_is_prefixed :
    HuggingFaceService.generate_text "m" "p" 100 (7/10) (fun _ _ => .error "boom")
      = .err "m" "Error: boom" ∧
    ("Error: boom" : String) ≠ "boom" :=
  ⟨rfl, by decide⟩

/-- C1 (amended): every adapter operation returns an envelope whose status is
`success` or `error` (and, being a total function of its arguments, raises
nothing past the adapter boundary); when the underlying remote call raises an
exception stringified as `e`, the operation returns the error envelope with
message `Error: ` followed by `e` and with the model id. -/
theorem C1_amended_adapter_error_envelopes
    (model_id prompt text context : String)
    (max_length min_length num_questions : Int) (temperature : Rat)
    (rg : String → GenParams → RemoteOutcome)
    (rs : String → SumParams → RemoteOutcome)
    (rq : String → QGenParams → RemoteOutcome) :
    ((HuggingFaceService.generate_text model_id prompt max_length temperature
        rg).status = "success" ∨
      (HuggingFaceService.generate_text model_id prompt max_length temperature
        rg).status = "error") ∧
    ((HuggingFaceService.summarize_text model_id text max_length min_length
        rs).status = "success" ∨
      (HuggingFaceService.summarize_text model_id text max_length min_length
        rs).status = "error") ∧
    ((HuggingFaceService.generate_questions model_id context num_questions
        rq).status = "success" ∨
      (HuggingFaceService.generate_questions model_id context num_questions
        rq).status = "error") ∧
    (∀ e, rg prompt (HuggingFaceService.genTextParameters temperature) = .error e →
      HuggingFaceService.generate_text model_id prompt max_length temperature rg
        = .err model_id ("Error: " ++ e)) ∧
    (∀ e, rs text { max_length := max_length, min_length := min_length,
                    do_sample := false } = .error e →
      HuggingFaceService.summarize_text model_id text max_length min_length rs
        = .err model_id ("Error: " ++ e)) ∧
    (∀ e, rq ("generate questions: " ++ context)
        { max_length := 64, num_return_sequences := num_questions,
          do_sample := true } = .error e →
      HuggingFaceService.generate_questions model_id context num_questions rq
        = .err model_id ("Error: " ++ e)) := by
  refine ⟨envelope_status_cases _, envelope_status_cases _, envelope_status_cases _,
    fun e h => ?_, fun e h => ?_, fun e h => ?_⟩
  · simp [HuggingFaceService.generate_text, h]
  · simp [HuggingFaceService.summarize_text, h]
  · simp [HuggingFaceService.generate_questions, h]

/-- C1 witness: the amended theorem applied at concrete inputs whose remote
calls fail with concrete exceptions. -/
theorem C1_amended_witness :
    HuggingFaceService.generate_text "m" "p" 100 (1/2) (fun _ _ => .error "boom")
      = .err "m" ("Error: " ++ "boom") ∧
    HuggingFaceService.summarize_text "m" "txt" 200 50 (fun _ _ => .error "net down")
      = .err "m" ("Error: " ++ "net down") ∧
    HuggingFaceService.generate_questions "m" "ctx" 5 (fun _ _ => .error "timeout")
      = .err "m" ("Error: " ++ "timeout") := by
  obtain ⟨-, -, -, hg, hs, hq⟩ :=
    C1_amended_adapter_error_envelopes "m" "p" "txt" "ctx" 100 50 5 (1/2)
      (fun _ _ => .error "boom") (fun _ _ => .error "net down")
      (fun _ _ => .error "timeout")
  exact ⟨hg "boom" rfl, hs "net down" rfl, hq "timeout" rfl⟩

/-- C2: for every summarize or generate-questions request that passes
validation and carries an uploaded file, the handler answers HTTP 500 with
the extraction-failure message wrapping the `TypeError` raised by the
argument-less `TextExtractor()` construction, for every file system and every
remote oracle — so the inference adapter is never consulted. -/
theorem C2_file_endpoints_always_fail_extraction
    (i : RawSumInput) (req : SumRequest) (f : UploadedFile) (dm : String)
    (fs : FS) (remote : String → SumParams → RemoteOutcome)
    (hv : validateSum i = .ok req) (hf : i.file = some f)
    (iq : RawQGenInput) (reqq : QGenRequest) (fq : UploadedFile) (dmq : String)
    (fsq : FS) (remoteq : String → QGenParams → RemoteOutcome)
    (hvq : validateQGen iq = .ok reqq) (hfq : iq.file = some fq) :
    SummarizationView.postAsync i dm fs remote
      = ⟨500, .errorMsg ("Failed to extract text: " ++ textExtractorInitTypeError)⟩ ∧
    QuestionGenerationView.postAsync iq dmq fsq remoteq
      = ⟨500, .errorMsg ("Failed to extract text: " ++ textExtractorInitTypeError)⟩ := by
  constructor
  · simp [SummarizationView.postAsync, hv, hf, TextExtractor.initCall]
  · simp [QuestionGenerationView.postAsync, hvq, hfq, TextExtractor.initCall]

/-- C2 witness: concrete valid requests with an uploaded file, on an
arbitrary file system and a remote oracle that would succeed, still get the
500 extraction-failure answer. -/
theorem C2_witness :
    SummarizationView.postAsync
        { file := some ⟨"doc.txt"⟩, max_length := none, min_length := none,
          model_id := none }
        "model-default" (fun _ => none) (fun _ _ => .ok "sum")
      = ⟨500, .errorMsg ("Failed to extract text: " ++ textExtractorInitTypeError)⟩ ∧
    QuestionGenerationView.postAsync
        { context := none, file := some ⟨"doc.txt"⟩, num_questions := none,
          model_id := none }
        "model-default" (fun _ => none) (fun _ _ => .ok "qs")
      = ⟨500, .errorMsg ("Failed to extract text: " ++ textExtractorInitTypeError)⟩ :=
  C2_file_endpoints_always_fail_extraction
    { file := some ⟨"doc.txt"⟩, max_length := none, min_length := none,
      model_id := none }
    { file := ⟨"doc.txt"⟩, max_length := 200, min_length := 50, model_id := none }
    ⟨"doc.txt"⟩ "model-default" (fun _ => none) (fun _ _ => .ok "sum") rfl rfl
    { context := none, file := some ⟨"doc.txt"⟩, num_questions := none,
      model_id := none }
    { context := none, file := some ⟨"doc.txt"⟩, num_questions := 5,
      model_id := none }
    ⟨"doc.txt"⟩ "model-default" (fun _ => none) (fun _ _ => .ok "qs") rfl rfl

/-- C3: on the summarization response-mapping path, whenever the remote
summarization call fails with an exception stringified as `e`, the produced
response is HTTP 500 carrying the error envelope, whose status is `error` and
whose message `Error: ` followed by `e` is non-empty; the mapping is a total
function, so no exception escapes the handler. -/
theorem C3_summarize_remote_failure_yields_500
    (req : SumRequest) (text dm e : String)
    (remote : String → SumParams → RemoteOutcome)
    (h : remote text { max_length := req.max_length, min_length := req.min_length,
                       do_sample := false } = .error e) :
    SummarizationView.dispatch req text dm remote
      = ⟨500, .envelope (.err (resolveModelId req.model_id dm) ("Error: " ++ e))⟩ ∧
    (Envelope.err (resolveModelId req.model_id dm) ("Error: " ++ e)).status
      = "error" ∧
    0 < ("Error: " ++ e).length := by
  have hereq : HuggingFaceService.summarize_text (resolveModelId req.model_id dm)
      text req.max_length req.min_length remote
      = .err (resolveModelId req.model_id dm) ("Error: " ++ e) := by
    simp [HuggingFaceService.summarize_text, h]
  refine ⟨?_, rfl, ?_⟩
  · simp [SummarizationView.dispatch, hereq, Envelope.status]
  · have : ("Error: " ++ e).length = "Error: ".length + e.length :=
      String.length_append _ _
    simp [this]
    left
    decide

/-- C3 witness: a concrete remote network failure during summarization gives
the concrete 500 error-envelope response. -/
theorem C3_witness :
    SummarizationView.dispatch
        { file := ⟨"doc.txt"⟩, max_length := 200, min_length := 50, model_id := none }
        "body text" "model-default" (fun _ _ => .error "network unreachable")
      = ⟨500, .envelope (.err "model-default" ("Error: " ++ "network unreachable"))⟩ ∧
    0 < ("Error: " ++ "network unreachable").length := by
  obtain ⟨h1, -, h3⟩ :=
    C3_summarize_remote_failure_yields_500
      { file := ⟨"doc.txt"⟩, max_length := 200, min_length := 50, model_id := none }
      "body text" "model-default" "network unreachable"
      (fun _ _ => .error "network unreachable") rfl
  exact ⟨h1, h3⟩

/-- C4 counterexample: the request with neither `context` nor `file` passes
serializer validation, yet the handler rejects it with HTTP 400
`No file uploaded` — a rejection response is produced. -/
theorem C4_counterexample_both_absent_rejected :
    validateQGen
        { context := none, file := none, num_questions := none, model_id := none }
      = .ok { context := none, file := none, num_questions := 5, model_id := none } ∧
    QuestionGenerationView.postAsync
        { context := none, file := none, num_questions := none, model_id := none }
        "model-default" (fun _ => none) (fun _ _ => .ok "qs")
      = ⟨400, .errorMsg "No file uploaded"⟩ :=
  ⟨rfl, rfl⟩

/-- C4 (amended): the question-generation serializer accepts requests in
which both `context` and `file` are absent — validation yields a typed
request, not field errors — but the handler then rejects every request whose
file part is absent with HTTP 400 and the fixed body `No file uploaded`. -/
theorem C4_amended_serializer_accepts_handler_rejects
    (i : RawQGenInput) (dm : String) (fs : FS)
    (remote : String → QGenParams → RemoteOutcome)
    (hf : i.file = none)
    (hnq : intRawViolation 1 10 i.num_questions = false) :
    (∃ req, validateQGen i = .ok req) ∧
    QuestionGenerationView.postAsync i dm fs remote
      = ⟨400, .errorMsg "No file uploaded"⟩ := by
  have hnq' : exceptIsErr (intField 1 10 5 i.num_questions) = false := by
    rw [intField_isErr]; exact hnq
  cases hq : intField 1 10 5 i.num_questions with
  | error u => rw [hq] at hnq'; simp [exceptIsErr] at hnq'
  | ok nq =>
    have hv : validateQGen i
        = .ok { context := i.context.map Raw.asStr, file := i.file,
                num_questions := nq, model_id := i.model_id.map Raw.asStr } := by
      simp [validateQGen, optCharField, optFileField, hq]
    exact ⟨⟨_, hv⟩, by simp [QuestionGenerationView.postAsync, hv, hf]⟩

/-- C4 witness: the amended theorem applied to the concrete request with both
fields absent. -/
theorem C4_amended_witness :
    QuestionGenerationView.postAsync
        { context := none, file := none, num_questions := none, model_id := none }
        "model-x" (fun _ => none) (fun _ _ => .ok "qs")
      = ⟨400, .errorMsg "No file uploaded"⟩ :=
  (C4_amended_serializer_accepts_handler_rejects
    { context := none, file := none, num_questions := none, model_id := none }
    "model-x" (fun _ => none) (fun _ _ => .ok "qs") rfl rfl).2

/-- C5: the handlers map outcomes to HTTP codes uniformly — a validation
failure answers 400 with the field errors as body (all three endpoints); once
an adapter envelope exists, status `success` answers 200 with the envelope as
body and status `error` answers 500 with the envelope as body (the
text-generation handler end to end, and the response-mapping tails of the
summarization and question-generation handlers). -/
theorem C5_http_status_mapping
    (i : RawGenInput) (dm : String) (remote : String → GenParams → RemoteOutcome)
    (isum : RawSumInput) (dms : String) (fss : FS)
    (remotes : String → SumParams → RemoteOutcome)
    (iq : RawQGenInput) (dmq : String) (fsq : FS)
    (remoteq : String → QGenParams → RemoteOutcome)
    (sreq : SumRequest) (stext : String) (qreq : QGenRequest) (qtext : String) :
    (∀ errs, validateGen i = .error errs →
      HuggingFaceView.postAsync i dm remote = ⟨400, .fieldErrors errs⟩) ∧
    (∀ req, validateGen i = .ok req →
      ((HuggingFaceService.generate_text (resolveModelId req.model_id dm)
          req.prompt req.max_length req.temperature remote).status = "success" →
        HuggingFaceView.postAsync i dm remote
          = ⟨200, .envelope (HuggingFaceService.generate_text
              (resolveModelId req.model_id dm) req.prompt req.max_length
              req.temperature remote)⟩) ∧
      ((HuggingFaceService.generate_text (resolveModelId req.model_id dm)
          req.prompt req.max_length req.temperature remote).status = "error" →
        HuggingFaceView.postAsync i dm remote
          = ⟨500, .envelope (HuggingFaceService.generate_text
              (resolveModelId req.model_id dm) req.prompt req.max_length
              req.temperature remote)⟩)) ∧
    (∀ errs, validateSum isum = .error errs →
      SummarizationView.postAsync isum dms fss remotes = ⟨400, .fieldErrors errs⟩) ∧
    (∀ errs, validateQGen iq = .error errs →
      QuestionGenerationView.postAsync iq dmq fsq remoteq
        = ⟨400, .fieldErrors errs⟩) ∧
    (((HuggingFaceService.summarize_text (resolveModelId sreq.model_id dms)
        stext sreq.max_length sreq.min_length remotes).status = "success" →
      SummarizationView.dispatch sreq stext dms remotes
        = ⟨200, .envelope (HuggingFaceService.summarize_text
            (resolveModelId sreq.model_id dms) stext sreq.max_length
            sreq.min_length remotes)⟩) ∧
     ((HuggingFaceService.summarize_text (resolveModelId sreq.model_id dms)
        stext sreq.max_length sreq.min_length remotes).status = "error" →
      SummarizationView.dispatch sreq stext dms remotes
        = ⟨500, .envelope (HuggingFaceService.summarize_text
            (resolveModelId sreq.model_id dms) stext sreq.max_length
            sreq.min_length remotes)⟩)) ∧
    (((HuggingFaceService.generate_questions (resolveModelId qreq.model_id dmq)
        qtext qreq.num_questions remoteq).status = "success" →
      QuestionGenerationView.dispatch qreq qtext dmq remoteq
        = ⟨200, .envelope (HuggingFaceService.generate_questions
            (resolveModelId qreq.model_id dmq) qtext qreq.num_questions
            remoteq)⟩) ∧
     ((HuggingFaceService.generate_questions (resolveModelId qreq.model_id dmq)
        qtext qreq.num_questions remoteq).status = "error" →
      QuestionGenerationView.dispatch qreq qtext dmq remoteq
        = ⟨500, .envelope (HuggingFaceService.generate_questions
            (resolveModelId qreq.model_id dmq) qtext qreq.num_questions
            remoteq)⟩)) := by
  refine ⟨fun errs hv => ?_, fun req hv => ⟨fun hs => ?_, fun hs => ?_⟩,
    fun errs hv => ?_, fun errs hv => ?_,
    ⟨fun hs => ?_, fun hs => ?_⟩, ⟨fun hs => ?_, fun hs => ?_⟩⟩
  · simp [HuggingFaceView.postAsync, hv]
  · simp [HuggingFaceView.postAsync, hv, status_beq_true _ hs]
  · simp [HuggingFaceView.postAsync, hv, status_beq_false _ hs]
  · simp [SummarizationView.postAsync, hv]
  · simp [QuestionGenerationView.postAsync, hv]
  · simp [SummarizationView.dispatch, status_beq_true _ hs]
  · simp [SummarizationView.dispatch, status_beq_false _ hs]
  · simp [QuestionGenerationView.dispatch, status_beq_true _ hs]
  · simp [QuestionGenerationView.dispatch, status_beq_false _ hs]

/-- C5 witness: the mapping theorem applied at concrete requests — an invalid
generation request (missing prompt), a valid one against a succeeding and
against a failing oracle, an invalid summarization request (missing file), an
invalid question-generation request (out-of-range count), and both dispatch
tails under success and failure. -/
theorem C5_witness :
    HuggingFaceView.postAsync
        { prompt := none, max_length := none, temperature := none, model_id := none }
        "dm" (fun _ _ => .ok "out")
      = ⟨400, .fieldErrors ["prompt"]⟩ ∧
    HuggingFaceView.postAsync
        { prompt := some (.rstr "hi"), max_length := none, temperature := none,
          model_id := none }
        "dm" (fun _ _ => .ok "out")
      = ⟨200, .envelope (.ok "dm" "response" "out")⟩ ∧
    HuggingFaceView.postAsync
        { prompt := some (.rstr "hi"), max_length := none, temperature := none,
          model_id := none }
        "dm" (fun _ _ => .error "x")
      = ⟨500, .envelope (.err "dm" "Error: x")⟩ ∧
    SummarizationView.postAsync
        { file := none, max_length := none, min_length := none, model_id := none }
        "dm" (fun _ => none) (fun _ _ => .ok "s")
      = ⟨400, .fieldErrors ["file"]⟩ ∧
    QuestionGenerationView.postAsync
        { context := none, file := none, num_questions := some (.rint 0),
          model_id := none }
        "dm" (fun _ => none) (fun _ _ => .ok "q")
      = ⟨400, .fieldErrors ["num_questions"]⟩ ∧
    SummarizationView.dispatch
        { file := ⟨"f.txt"⟩, max_length := 200, min_length := 50, model_id := none }
        "t" "dm" (fun _ _ => .ok "s")
      = ⟨200, .envelope (.ok "dm" "response" "s")⟩ ∧
    SummarizationView.dispatch
        { file := ⟨"f.txt"⟩, max_length := 200, min_length := 50, model_id := none }
        "t" "dm" (fun _ _ => .error "x")
      = ⟨500, .envelope (.err "dm" "Error: x")⟩ ∧
    QuestionGenerationView.dispatch
        { context := none, file := some ⟨"f.txt"⟩, num_questions := 5,
          model_id := none }
        "t" "dm" (fun _ _ => .ok "q")
      = ⟨200, .envelope (.ok "dm" "questions" "q")⟩ ∧
    QuestionGenerationView.dispatch
        { context := none, file := some ⟨"f.txt"⟩, num_questions := 5,
          model_id := none }
        "t" "dm" (fun _ _ => .error "x")
      = ⟨500, .envelope (.err "dm" "Error: x")⟩ := by
  obtain ⟨hA1, hA2, -, -, ⟨hA5, -⟩, hA6, -⟩ :=
    C5_http_status_mapping
      { prompt := some (.rstr "hi"), max_length := none, temperature := none,
        model_id := none }
      "dm" (fun _ _ => .ok "out")
      { file := none, max_length := none, min_length := none, model_id := none }
      "dm" (fun _ => none) (fun _ _ => .ok "s")
      { context := none, file := none, num_questions := some (.rint 0),
        model_id := none }
      "dm" (fun _ => none) (fun _ _ => .ok "q")
      { file := ⟨"f.txt"⟩, max_length := 200, min_length := 50, model_id := none }
      "t"
      { context := none, file := some ⟨"f.txt"⟩, num_questions := 5,
        model_id := none }
      "t"
  obtain ⟨-, hB2, -, -, ⟨-, hB5⟩, -, hB6⟩ :=
    C5_http_status_mapping
      { prompt := some (.rstr "hi"), max_length := none, temperature := none,
        model_id := none }
      "dm" (fun _ _ => .error "x")
      { file := none, max_length := none, min_length := none, model_id := none }
      "dm" (fun _ => none) (fun _ _ => .error "x")
      { context := none, file := none, num_questions := some (.rint 0),
        model_id := none }
      "dm" (fun _ => none) (fun _ _ => .error "x")
      { file := ⟨"f.txt"⟩, max_length := 200, min_length := 50, model_id := none }
      "t"
      { context := none, file := some ⟨"f.txt"⟩, num_questions := 5,
        model_id := none }
      "t"
  obtain ⟨hC1, -, hC3, hC4, -, -⟩ :=
    C5_http_status_mapping
      { prompt := none, max_length := none, temperature := none, model_id := none }
      "dm" (fun _ _ => .ok "out")
      { file := none, max_length := none, min_length := none, model_id := none }
      "dm" (fun _ => none) (fun _ _ => .ok "s")
      { context := none, file := none, num_questions := some (.rint 0),
        model_id := none }
      "dm" (fun _ => none) (fun _ _ => .ok "q")
      { file := ⟨"f.txt"⟩, max_length := 200, min_length := 50, model_id := none }
      "t"
      { context := none, file := some ⟨"f.txt"⟩, num_questions := 5,
        model_id := none }
      "t"
  refine ⟨hC1 ["prompt"] rfl, ?_, ?_, hC3 ["file"] rfl, hC4 ["num_questions"] rfl,
    hA5 rfl, hB5 rfl, hA6 rfl, hB6 rfl⟩
  · exact (hA2 { prompt := "hi", max_length := 100, temperature := 7/10,
                 model_id := none } rfl).1 rfl
  · exact (hB2 { prompt := "hi", max_length := 100, temperature := 7/10,
                 model_id := none } rfl).2 rfl

/-- C8 counterexample: a present-but-blank `prompt` is reported as a field
error by the validator, yet it is none of the claim's enumerated violation
kinds — not missing, not non-numeric where a number is required, not out of
range — so the reported set is strictly larger than the claim's set. -/
theorem C8_counterexample_blank_prompt_reported :
    errorFieldsOf (validateGen
        { prompt := some (.rstr ""), max_length := none, temperature := none,
          model_id := none })
      = ["prompt"] ∧
    genViolationFields
        { prompt := some (.rstr ""), max_length := none, temperature := none,
          model_id := none }
      = [] :=
  ⟨rfl, rfl⟩

/-- C8 (amended): the text-generation validator collects all failures and
reports exactly the violated fields — those missing while required, blank
while required and not allowing blank, non-numeric where a number is
required, or out of their inclusive range — no more, no fewer; the typed
request is produced exactly when that set is empty. -/
theorem C8_amended_validator_reports_exact_violation_set (i : RawGenInput) :
    errorFieldsOf (validateGen i) = genViolationFieldsAmended i ∧
    ((∃ req, validateGen i = .ok req) ↔ genViolationFieldsAmended i = []) := by
  have hP := reqCharField_isErr i.prompt
  have hM := intField_isErr 1 1000 100 i.max_length
  have hT := floatField_isErr 0 1 (7/10) i.temperature
  rcases hp : reqCharField i.prompt with u | p <;>
    rcases hm : intField 1 1000 100 i.max_length with u2 | ml <;>
      rcases ht : floatField 0 1 (7/10) i.temperature with u3 | t <;>
        simp_all [validateGen, genViolationFieldsAmended, errorFieldsOf,
          errName, exceptIsErr, optCharField]
